import Mathlib

/-!
Verification of the fraud-detection web client's asynchronous job lifecycle
core, shallowly embedded from the JavaScript source: the Transport layer
(`fetchAPI` in api.js), the API layer (`PredictionAPI.analyzeTransaction`,
`PredictionAPI.getPrediction`), and the status Poller
(`App.checkPredictionStatus` in the main controller file), together with the
balance-reconciliation signals it emits.
-/

namespace FraudDetection

/-- JS `haystack.includes(needle)`: contiguous-substring test on the
character sequences, matching JavaScript's case-sensitive semantics. -/
def jsIncludes (s sub : String) : Bool :=
  go sub.toList s.toList
where
  /-- Does `pat` occur as a contiguous run inside `l`? -/
  go (pat : List Char) : List Char → Bool
    | [] => pat.isEmpty
    | c :: rest => pat.isPrefixOf (c :: rest) || go pat rest

/-- Minimal model of the JSON values exchanged with the server (decoded
response bodies and request payload fields). -/
inductive JsValue where
  | null
  | str (s : String)
  | num (q : ℚ)
  | bool (b : Bool)
  | obj (fields : List (String × JsValue))
  | arr (elems : List JsValue)

/-- JS property read `v.k` on a decoded JSON value: `some` when the property
exists on an object, `none` (JS `undefined`) otherwise. -/
def JsValue.getField : JsValue → String → Option JsValue
  | .obj fs, k => (fs.find? (fun kv => kv.1 == k)).map (fun kv => kv.2)
  | _, _ => none

/-- Property read that also requires the value to be a string, mirroring
comparisons like `prediction.status === 'pending'` (a missing or non-string
property never equals a string literal in JS). -/
def JsValue.getStrField (v : JsValue) (k : String) : Option String :=
  match v.getField k with
  | some (.str s) => some s
  | _ => none

/-- JS truthiness of a decoded JSON value (`NaN` does not arise here). -/
def JsValue.truthy : JsValue → Bool
  | .null => false
  | .str s => !s.isEmpty
  | .num q => q != 0
  | .bool b => b
  | .obj _ => true
  | .arr _ => true

/-- Outcome of the single `fetch` exchange attempted inside `fetchAPI`:
either the promise rejects with the 30-second `AbortError` timeout, or with
the connection-level `TypeError: Failed to fetch`, or an HTTP response
arrives. For a response, `jsonBody` is `some v` when `response.json()`
parses to `v` and `none` when parsing throws; `textBody` is what
`response.text()` yields. -/
inductive WireResult where
  | abort
  | netFail
  | http (ok : Bool) (status : Nat) (statusText : String)
      (contentType : Option String) (jsonBody : Option JsValue) (textBody : String)

/-- JS `text.length > 100` truncation applied to non-JSON error bodies in
`fetchAPI` (`substring(0, 100) + '...'`). -/
def truncate100 (s : String) : String :=
  if s.length > 100 then s.take 100 ++ "..." else s

/-- The error message `fetchAPI` constructs for a non-ok HTTP response: a
JSON body's truthy `detail` field wins, a JSON parse failure falls back to
the generic status-line message, and a non-JSON body falls back to its
(possibly truncated) text. A non-string truthy `detail` would be coerced by
JS; such bodies do not occur in the scenarios below, and the default message
stands in for them. -/
def httpErrorMessage (status : Nat) (statusText : String)
    (contentType : Option String) (jsonBody : Option JsValue) (textBody : String) :
    String :=
  if (match contentType with
      | some ct => jsIncludes ct "application/json"
      | none => false) then
    match jsonBody with
    | some v =>
      match v.getField "detail" with
      | some (.str d) => if !d.isEmpty then d else "Произошла ошибка при выполнении запроса"
      | _ => "Произошла ошибка при выполнении запроса"
    | none => "Ошибка " ++ toString status ++ ": " ++ statusText
  else
    truncate100 (if textBody.isEmpty then "Произошла ошибка при выполнении запроса" else textBody)

/-- `fetchAPI(endpoint, method, data, auth)` from api.js, as a function of
the authorization state (`token` models `localStorage.getItem('token')`) and
of what the wire returns. The second component counts network requests
actually issued (0 or 1: this function performs the fetch at most once and
never loops). The endpoint, method and body do not influence the control
flow modelled here; body serialization (`JSON.stringify`) cannot fail on the
acyclic `JsValue` payloads this model admits. -/
def fetchAPI (auth : Bool) (token : Option String) (wire : WireResult) :
    Except String JsValue × Nat :=
  if auth && token.isNone then
    (.error "Требуется авторизация", 0)
  else
    match wire with
    | .abort => (.error "Превышено время ожидания ответа от сервера", 1)
    | .netFail =>
      (.error "Не удалось подключиться к серверу. Проверьте подключение к интернету.", 1)
    | .http ok status statusText contentType jsonBody textBody =>
      if !ok then
        (.error (httpErrorMessage status statusText contentType jsonBody textBody), 1)
      else
        match contentType with
        | none => (.ok .null, 1)
        | some ct =>
          if jsIncludes ct "application/json" then
            match jsonBody with
            | some v => (.ok v, 1)
            | none => (.error "Получен некорректный JSON от сервера", 1)
          else
            (.ok (.str textBody), 1)

/-- JS falsiness of the identifier argument (`if (!id)`): absent or empty. -/
def jsFalsyId : Option String → Bool
  | none => true
  | some s => s.isEmpty

/-- The `while (retries < maxRetries)` loop of `PredictionAPI.getPrediction`:
attempt `retries` consults `wires retries`; a failure increments `retries`
and is re-thrown when the budget is reached or the message does not contain
'сервер', otherwise the loop sleeps 1000 ms and tries again. `fuel` is
`maxRetries - retries`; the fuel-0 case is the loop exiting without a
`return`, where JS would yield `undefined` (unreachable when started with
`retries = 0`, `fuel = 3`). The second component accumulates network
requests issued. -/
def getPredictionLoop (token : Option String) (wires : Nat → WireResult) :
    Nat → Nat → Except String JsValue × Nat
  | _, 0 => (.ok .null, 0)
  | retries, fuel + 1 =>
    match fetchAPI true token (wires retries) with
    | (.ok v, n) => (.ok v, n)
    | (.error msg, n) =>
      if 3 ≤ retries + 1 ∨ jsIncludes msg "сервер" = false then
        (.error msg, n)
      else
        match getPredictionLoop token wires (retries + 1) fuel with
        | (res, m) => (res, n + m)

/-- `PredictionAPI.getPrediction(id)` from api.js: rejects a falsy
identifier before any network activity, then runs the bounded retry loop
(`maxRetries = 3`). -/
def getPrediction (id : Option String) (token : Option String)
    (wires : Nat → WireResult) : Except String JsValue × Nat :=
  if jsFalsyId id then
    (.error "Не указан идентификатор предсказания", 0)
  else
    getPredictionLoop token wires 0 3

/-- The mutable fields of the `App` controller that the poller reads and
writes. There is one `App` instance for the whole page, so these two counters
are shared by every polled job. In the source both start out `undefined`;
every read of `predictionRetryCount` goes through `|| 0` and
`predictionErrorRetryCount` is read directly only after being assigned a
number, so modelling them as naturals initialised to 0 is faithful. -/
structure AppState where
  predictionRetryCount : Nat
  predictionErrorRetryCount : Nat
deriving DecidableEq, Repr

/-- Fresh `App` controller state: neither counter has ever been incremented. -/
def initialAppState : AppState := ⟨0, 0⟩

/-- What `checkPredictionStatus` reports to the consumer (which `innerHTML`
branch it renders). -/
inductive PollReport where
  | invalidId
  | terminal (p : JsValue)
  | stillPending
  | notFound
  | technicalRetry
  | technicalAbandoned
  | otherError (msg : String)

/-- The observable outcome of one `checkPredictionStatus` invocation:
the updated controller state, how many immediate `loadBalance()` calls were
made, the delays (ms) of any `setTimeout`-scheduled extra `loadBalance`
calls, the delay (ms) of the next self-scheduled `checkPredictionStatus`
(`none` when no further query is scheduled), and what was reported. -/
structure StepOutput where
  state : AppState
  refreshNow : Nat
  delayedRefreshes : List ℚ
  nextCheckDelay : Option ℚ
  report : PollReport

/-- The marker scan in the terminal branch of `checkPredictionStatus`: a
truthy `result` that is an object whose truthy `prediction` property
contains the marker 'Лица не обнаружены', or a string containing that
marker — the code's notion of a result "flagged as a non-chargeable
outcome". A truthy non-string `prediction` property would make JS throw
inside the handler; such payloads do not occur here and map to `false`. -/
def nonChargeableResult (p : JsValue) : Bool :=
  match p.getField "result" with
  | some r =>
    r.truthy &&
    ((match r with
      | .obj _ =>
        match r.getField "prediction" with
        | some (.str s) => !s.isEmpty && jsIncludes s "Лица не обнаружены"
        | _ => false
      | _ => false) ||
     (match r with
      | .str s => jsIncludes s "Лица не обнаружены"
      | _ => false))
  | none => false

/-- The full refund heuristic guarding the extra delayed balance refresh:
`status === 'failed'`, or the non-chargeable marker scan on `result`. -/
def refundCondition (p : JsValue) : Bool :=
  (p.getStrField "status" == some "failed") || nonChargeableResult p

/-- JS `Math.min` on the two (never-NaN) delay operands, with the order test
spelled as integer cross-multiplication (denominators are positive, so this
is exactly `a ≤ b`). -/
def jsMin (a b : ℚ) : ℚ := if a.num * b.den ≤ b.num * a.den then a else b

/-- `baseDelay * Math.pow(1.5, retryCount)` computed exactly:
`2000 * 1.5^n = (2000 * 3^n) / 2^n`. Every value of the clamped schedule
`min(2000 * 1.5^n, 10000)` is exactly representable in JS doubles (it is
2000, 3000, 4500, 6750 or 10000), so the exact rational computation agrees
with the source's floating-point one. -/
def backoffDelay (n : Nat) : ℚ := mkRat (2000 * 3 ^ n) (2 ^ n)

/-- The exact backoff agrees with the specification's formula `2000 * 1.5^n`. -/
theorem backoffDelay_eq (n : Nat) : backoffDelay n = 2000 * (3 / 2 : ℚ) ^ n := by
  unfold backoffDelay
  rw [Rat.mkRat_eq_div]
  push_cast
  rw [div_pow]
  ring

/-- The body of `App.checkPredictionStatus` once `PredictionAPI.getPrediction`
has resolved: the success branch (terminal display plus balance refreshes, or
the pending-retry schedule `min(2000 * 1.5^retryCount, 10000)` with the
counter incremented after the delay is computed) and the catch branch (the
'not found' / 'Internal Server Error' / other message classification, with
the error-retry counter incremented and compared against `maxErrorRetries =
3` and a fixed 5000 ms error-retry delay). -/
def pollStep (st : AppState) (res : Except String JsValue) : StepOutput :=
  match res with
  | .ok p =>
    if p.getStrField "status" != some "pending" then
      { state := st
        refreshNow := 1
        delayedRefreshes := if refundCondition p then [1000] else []
        nextCheckDelay := none
        report := .terminal p }
    else
      { state := { st with predictionRetryCount := st.predictionRetryCount + 1 }
        refreshNow := 0
        delayedRefreshes := []
        nextCheckDelay := some (jsMin (backoffDelay st.predictionRetryCount) 10000)
        report := .stillPending }
  | .error msg =>
    if jsIncludes msg "not found" then
      { state := st, refreshNow := 0, delayedRefreshes := []
        nextCheckDelay := none, report := .notFound }
    else if jsIncludes msg "Internal Server Error" then
      if st.predictionErrorRetryCount + 1 ≤ 3 then
        { state := { st with predictionErrorRetryCount := st.predictionErrorRetryCount + 1 }
          refreshNow := 0, delayedRefreshes := []
          nextCheckDelay := some 5000, report := .technicalRetry }
      else
        { state := { st with predictionErrorRetryCount := st.predictionErrorRetryCount + 1 }
          refreshNow := 0, delayedRefreshes := []
          nextCheckDelay := none, report := .technicalAbandoned }
    else
      { state := st, refreshNow := 0, delayedRefreshes := []
        nextCheckDelay := none, report := .otherError msg }

/-- `App.checkPredictionStatus(predictionId)`: the falsy-identifier guard
(no network activity, an error rendered, nothing rescheduled), then one
`PredictionAPI.getPrediction` call whose resolution feeds `pollStep`. The
second component counts network requests issued. -/
def checkPredictionStatus (predictionId : Option String) (st : AppState)
    (token : Option String) (wires : Nat → WireResult) : StepOutput × Nat :=
  if jsFalsyId predictionId then
    ({ state := st, refreshNow := 0, delayedRefreshes := []
       nextCheckDelay := none, report := .invalidId }, 0)
  else
    match getPrediction predictionId token wires with
    | (res, calls) => (pollStep st res, calls)

/-- Drives `checkPredictionStatus` through its timer-based self-rescheduling:
step `i` consults the wire sequence `wireSeq i`, and a further step runs only
when the previous one scheduled one (`nextCheckDelay = some _`). `fuel`
bounds the unrolling; a trace shorter than its fuel ended because the poller
stopped. -/
def runPoll (predictionId : Option String) (token : Option String)
    (wireSeq : Nat → Nat → WireResult) :
    Nat → AppState → Nat → List (StepOutput × Nat)
  | _, _, 0 => []
  | i, st, fuel + 1 =>
    match checkPredictionStatus predictionId st token (wireSeq i) with
    | (out, calls) =>
      (out, calls) ::
        (match out.nextCheckDelay with
         | some _ => runPoll predictionId token wireSeq (i + 1) out.state fuel
         | none => [])

/-- Total network requests issued over a poll trace. -/
def totalQueries (tr : List (StepOutput × Nat)) : Nat :=
  (tr.map (fun r => r.2)).sum

/-- How many steps of a trace reported a terminal payload. -/
def countTerminalReports (tr : List (StepOutput × Nat)) : Nat :=
  (tr.filter (fun r =>
    match r.1.report with
    | .terminal _ => true
    | _ => false)).length

/-- Bool test for the "technical difficulties" abandonment report. -/
def reportIsTechnicalAbandoned : PollReport → Bool
  | .technicalAbandoned => true
  | _ => false

/-- The required-field contract of `PredictionAPI.analyzeTransaction`, in
source order. -/
def requiredFields : List String :=
  ["id", "amount", "origin_account", "dest_account",
   "old_balance_orig", "new_balance_orig",
   "old_balance_dest", "new_balance_dest",
   "hour", "day", "month"]

/-- The `for (const field of requiredFields)` scan: the first required field
not present on the payload object (JS `field in transactionData`). -/
def firstMissingField (tx : List (String × JsValue)) : Option String :=
  requiredFields.find? (fun f => !(tx.any (fun kv => kv.1 == f)))

/-- `PredictionAPI.analyzeTransaction(transactionData)`: the non-object
guard, the fail-fast required-field validation naming the first missing
field, and only then the authenticated `fetchAPI` POST (whose try/catch
re-throws unchanged). `none` models a falsy or non-object argument. The
second component counts network requests issued. -/
def analyzeTransaction (tx : Option (List (String × JsValue)))
    (token : Option String) (wire : WireResult) : Except String JsValue × Nat :=
  match tx with
  | none => (.error "Не предоставлены данные транзакции для анализа", 0)
  | some fields =>
    match firstMissingField fields with
    | some f => (.error ("Отсутствует обязательное поле: " ++ f), 0)
    | none => fetchAPI true token wire

/-- Server answers 200 with a still-pending job record. -/
def wirePending : WireResult :=
  .http true 200 "OK" (some "application/json")
    (some (.obj [("prediction_id", .str "J1"), ("status", .str "pending")])) ""

/-- Server answers 200 with a completed job record carrying a fraud verdict
(no refund marker). -/
def wireCompleted : WireResult :=
  .http true 200 "OK" (some "application/json")
    (some (.obj [("prediction_id", .str "J1"), ("status", .str "completed"),
                 ("result", .obj [("is_fraud", .bool false),
                                  ("fraud_probability", .num (2 / 100)),
                                  ("confidence", .num (97 / 100))])])) ""

/-- Server answers 500 with the usual internal-error detail. -/
def wireServerInternal : WireResult :=
  .http false 500 "Internal Server Error" (some "application/json")
    (some (.obj [("detail", .str "Internal Server Error")])) ""

/-- Server answers 404: the job record does not exist. -/
def wireNotFound : WireResult :=
  .http false 404 "Not Found" (some "application/json")
    (some (.obj [("detail", .str "Prediction not found")])) ""

/-- Per-step wire schedule for the `pending, pending, completed` scenario. -/
def pendingPendingCompleted : Nat → Nat → WireResult :=
  fun step _ => if step < 2 then wirePending else wireCompleted

/-- A decoded job record that is still pending. -/
def pendingPayload : JsValue := .obj [("status", .str "pending")]

/-- A decoded job record that has failed. -/
def failedPayload : JsValue := .obj [("status", .str "failed")]

/-- A transaction payload carrying every required field. -/
def fullTransaction : List (String × JsValue) :=
  [("id", .str "T1"), ("amount", .num 100), ("origin_account", .str "A1"),
   ("dest_account", .str "B1"), ("old_balance_orig", .num 500),
   ("new_balance_orig", .num 400), ("old_balance_dest", .num 0),
   ("new_balance_dest", .num 100), ("hour", .num 12), ("day", .num 3),
   ("month", .num 5)]

/-- C1: every successful poll reporting `status = pending` keeps the poller
polling: it schedules the next query after `min(2000 * 1.5^attempt, 10000)`
milliseconds (where `attempt` is the pending-attempt counter read at that
outcome), increments that counter — with no cap, since this holds for every
counter value — and fires no balance refreshes. Moreover, the
`pending, pending, completed` scenario issues exactly 3 queries, its second
scheduled delay is `2000 * 1.5 = 3000` ms, and it reports a terminal payload
exactly once. -/
theorem pending_success_keeps_polling_with_backoff (st : AppState) (p : JsValue)
    (h : p.getStrField "status" = some "pending") :
    pollStep st (.ok p) =
      { state := { st with predictionRetryCount := st.predictionRetryCount + 1 }
        refreshNow := 0
        delayedRefreshes := []
        nextCheckDelay := some (jsMin (2000 * (3 / 2 : ℚ) ^ st.predictionRetryCount) 10000)
        report := .stillPending } ∧
    totalQueries (runPoll (some "J1") (some "tok") pendingPendingCompleted 0 initialAppState 10) = 3 ∧
    countTerminalReports
      (runPoll (some "J1") (some "tok") pendingPendingCompleted 0 initialAppState 10) = 1 ∧
    ((runPoll (some "J1") (some "tok") pendingPendingCompleted 0 initialAppState 10).map
      (fun r => r.1.nextCheckDelay)) = [some 2000, some 3000, none] := by
  refine ⟨?_, by decide, by decide, by decide⟩
  simp [pollStep, h, backoffDelay_eq]

/-- Closed instance of C1 at attempt counter 2: the scheduled delay is
`min(2000 * 1.5^2, 10000)` and the counter advances to 3. -/
theorem pending_success_keeps_polling_with_backoff_witness :
    pollStep ⟨2, 1⟩ (.ok pendingPayload) =
      { state := ⟨3, 1⟩
        refreshNow := 0
        delayedRefreshes := []
        nextCheckDelay := some (jsMin (2000 * (3 / 2 : ℚ) ^ 2) 10000)
        report := .stillPending } :=
  (pending_success_keeps_polling_with_backoff ⟨2, 1⟩ pendingPayload rfl).1

/-- C2: a poll failure classified server-internal (message contains
'Internal Server Error' and not 'not found') keeps the poller polling with a
fixed 5000 ms delay while the incremented error-retry counter stays within
`maxErrorRetries = 3`, and abandons with the "technical difficulties" report
(scheduling nothing) once it exceeds 3. A job answering server-internal on
every query is abandoned on the 4th query: the trace has exactly 4 steps and
4 network requests, the first three rescheduling at 5000 ms. -/
theorem server_internal_bounded_retry (st : AppState) (msg : String)
    (h1 : jsIncludes msg "not found" = false)
    (h2 : jsIncludes msg "Internal Server Error" = true) :
    (st.predictionErrorRetryCount + 1 ≤ 3 →
      pollStep st (.error msg) =
        { state := { st with predictionErrorRetryCount := st.predictionErrorRetryCount + 1 }
          refreshNow := 0
          delayedRefreshes := []
          nextCheckDelay := some 5000
          report := .technicalRetry }) ∧
    (3 < st.predictionErrorRetryCount + 1 →
      pollStep st (.error msg) =
        { state := { st with predictionErrorRetryCount := st.predictionErrorRetryCount + 1 }
          refreshNow := 0
          delayedRefreshes := []
          nextCheckDelay := none
          report := .technicalAbandoned }) ∧
    (runPoll (some "J1") (some "tok") (fun _ _ => wireServerInternal) 0 initialAppState 100).length = 4 ∧
    totalQueries
      (runPoll (some "J1") (some "tok") (fun _ _ => wireServerInternal) 0 initialAppState 100) = 4 ∧
    ((runPoll (some "J1") (some "tok") (fun _ _ => wireServerInternal) 0 initialAppState 100).map
      (fun r => r.1.nextCheckDelay)) = [some 5000, some 5000, some 5000, none] ∧
    ((runPoll (some "J1") (some "tok") (fun _ _ => wireServerInternal) 0 initialAppState 100).getLast?.map
      (fun r => reportIsTechnicalAbandoned r.1.report)) = some true := by
  refine ⟨?_, ?_, by decide, by decide, by decide, by decide⟩
  · intro hc
    simp [pollStep, h1, h2, hc]
  · intro hc
    simp [pollStep, h1, h2, Nat.not_le.mpr hc]

/-- Closed instance of C2: with a fresh error counter a first 500-classified
failure schedules a 5000 ms error retry with the counter at 1. -/
theorem server_internal_bounded_retry_witness :
    pollStep ⟨0, 0⟩ (.error "Internal Server Error") =
      { state := ⟨0, 1⟩
        refreshNow := 0
        delayedRefreshes := []
        nextCheckDelay := some 5000
        report := .technicalRetry } :=
  (server_internal_bounded_retry ⟨0, 0⟩ "Internal Server Error"
    (by decide) (by decide)).1 (by decide)

/-- C3: `analyzeTransaction` validates before it talks to the network. A
payload missing a required field fails with the validation message naming
the first missing field (in `requiredFields` order, which is what
`firstMissingField` computes) and issues zero network requests; a payload
with every required field present proceeds exactly as the authenticated
transport call does. -/
theorem submit_validates_before_network (tx : List (String × JsValue))
    (token : Option String) (wire : WireResult) (f : String) :
    (firstMissingField tx = some f →
      analyzeTransaction (some tx) token wire =
        (.error ("Отсутствует обязательное поле: " ++ f), 0)) ∧
    (firstMissingField tx = none →
      analyzeTransaction (some tx) token wire = fetchAPI true token wire) := by
  constructor
  · intro h
    simp [analyzeTransaction, h]
  · intro h
    simp [analyzeTransaction, h]

/-- Closed instance of C3: a payload with only `id` fails naming `amount`
with zero network requests, and a complete payload reduces to the transport
call. -/
theorem submit_validates_before_network_witness :
    analyzeTransaction (some [("id", JsValue.str "T1")]) (some "tok") wirePending =
      (.error ("Отсутствует обязательное поле: " ++ "amount"), 0) ∧
    analyzeTransaction (some fullTransaction) (some "tok") wirePending =
      fetchAPI true (some "tok") wirePending :=
  ⟨(submit_validates_before_network [("id", JsValue.str "T1")] (some "tok")
      wirePending "amount").1 rfl,
   (submit_validates_before_network fullTransaction (some "tok")
      wirePending "amount").2 rfl⟩

/-- C4: when a poll resolves to a terminal status (`completed` or `failed`)
the poller fires exactly one immediate balance refresh, schedules exactly
one extra refresh 1000 ms later precisely when the refund condition holds —
which, for these statuses, is exactly "the status is `failed`, or the result
is flagged non-chargeable" — and schedules no further status query. -/
theorem terminal_triggers_reconciliation (st : AppState) (p : JsValue) (s : String)
    (hs : p.getStrField "status" = some s)
    (hterm : s = "completed" ∨ s = "failed") :
    (pollStep st (.ok p)).refreshNow = 1 ∧
    (pollStep st (.ok p)).delayedRefreshes =
      (if refundCondition p then [1000] else []) ∧
    (refundCondition p = true ↔ (s = "failed" ∨ nonChargeableResult p = true)) ∧
    (pollStep st (.ok p)).nextCheckDelay = none := by
  have hpend : (p.getStrField "status" != some "pending") = true := by
    rcases hterm with h | h <;> subst h <;> simp [hs]
  refine ⟨?_, ?_, ?_, ?_⟩
  · simp [pollStep, hpend]
  · simp [pollStep, hpend]
  · simp [refundCondition, hs]
  · simp [pollStep, hpend]

/-- Closed instance of C4 at a failed payload: one immediate refresh, one
extra refresh scheduled at 1000 ms, nothing rescheduled. -/
theorem terminal_triggers_reconciliation_witness :
    (pollStep ⟨0, 0⟩ (.ok failedPayload)).refreshNow = 1 ∧
    (pollStep ⟨0, 0⟩ (.ok failedPayload)).delayedRefreshes =
      (if refundCondition failedPayload then [1000] else []) ∧
    (refundCondition failedPayload = true ↔
      ("failed" = "failed" ∨ nonChargeableResult failedPayload = true)) ∧
    (pollStep ⟨0, 0⟩ (.ok failedPayload)).nextCheckDelay = none :=
  terminal_triggers_reconciliation ⟨0, 0⟩ failedPayload "failed" rfl (Or.inr rfl)

/-- C5 as written is false of the code: no successful status query ever
resets the error-retry counter. After one error retry (counter at 1), a
successful pending poll leaves the counter at 1 rather than resetting it to
zero. -/
theorem success_does_not_reset_error_counter_cex :
    (pollStep ⟨0, 1⟩ (.ok pendingPayload)).state.predictionErrorRetryCount = 1 ∧
    ¬(pollStep ⟨0, 1⟩ (.ok pendingPayload)).state.predictionErrorRetryCount = 0 := by
  decide

/-- C5 amended: the two counters are independent — a successful query never
touches the error-retry counter (it is never reset, merely left unchanged),
and a failed query never touches the pending-retry counter. -/
theorem counters_independent_success_preserves_error_counter
    (st : AppState) (p : JsValue) (msg : String) :
    (pollStep st (.ok p)).state.predictionErrorRetryCount =
      st.predictionErrorRetryCount ∧
    (pollStep st (.error msg)).state.predictionRetryCount =
      st.predictionRetryCount := by
  constructor
  · simp only [pollStep]
    split <;> rfl
  · simp only [pollStep]
    split
    · rfl
    · split
      · split <;> rfl
      · rfl

/-- C6 as written is false of the code: `PredictionAPI.getPrediction`
retries on its own. Under a persistent 30-second timeout it issues 3 network
requests (the timeout message contains 'сервер', so the API-layer loop
retries it twice) before surfacing the timeout error. -/
theorem api_layer_retries_timeout_cex :
    (getPrediction (some "J1") (some "tok") (fun _ => WireResult.abort)).2 = 3 ∧
    (getPrediction (some "J1") (some "tok") (fun _ => WireResult.abort)).1 =
      .error "Превышено время ожидания ответа от сервера" :=
  ⟨rfl, rfl⟩

/-- C6 amended: the Transport (`fetchAPI`) issues at most one network
request per call; the API layer's `getPrediction` is what retries — a
persistent timeout costs 3 requests before surfacing — and once an error not
classified 'not found' or 'Internal Server Error' (timeout, network,
unknown) reaches the poller, it stops that job's polling with no further
query and surfaces the message. -/
theorem transport_single_shot_api_retries_poller_stops
    (auth : Bool) (token : Option String) (wire : WireResult)
    (st : AppState) (msg : String)
    (h1 : jsIncludes msg "not found" = false)
    (h2 : jsIncludes msg "Internal Server Error" = false) :
    (fetchAPI auth token wire).2 ≤ 1 ∧
    (getPrediction (some "J1") (some "tok") (fun _ => WireResult.abort)).2 = 3 ∧
    (pollStep st (.error msg)).nextCheckDelay = none ∧
    (pollStep st (.error msg)).report = .otherError msg := by
  refine ⟨?_, rfl, ?_, ?_⟩
  · simp only [fetchAPI]
    repeat' split
    all_goals simp
  · simp [pollStep, h1, h2]
  · simp [pollStep, h1, h2]

/-- Closed instance of the amended C6 at the surfaced timeout message: the
poller schedules nothing further and reports the raw error. -/
theorem transport_single_shot_api_retries_poller_stops_witness :
    (fetchAPI true (some "tok") WireResult.abort).2 ≤ 1 ∧
    (getPrediction (some "J1") (some "tok") (fun _ => WireResult.abort)).2 = 3 ∧
    (pollStep ⟨0, 0⟩
      (.error "Превышено время ожидания ответа от сервера")).nextCheckDelay = none ∧
    (pollStep ⟨0, 0⟩
      (.error "Превышено время ожидания ответа от сервера")).report =
      .otherError "Превышено время ожидания ответа от сервера" :=
  transport_single_shot_api_retries_poller_stops true (some "tok")
    WireResult.abort ⟨0, 0⟩ "Превышено время ожидания ответа от сервера"
    (by decide) (by decide)

/-- C7: a poll failure whose message contains 'not found' abandons the job on
that first response — the not-found report is rendered, the state is left
untouched, and no further query is scheduled. A job answering 404 is polled
exactly once: its trace has one step and one network request. -/
theorem not_found_abandons_immediately (st : AppState) (msg : String)
    (h : jsIncludes msg "not found" = true) :
    pollStep st (.error msg) =
      { state := st
        refreshNow := 0
        delayedRefreshes := []
        nextCheckDelay := none
        report := .notFound } ∧
    (runPoll (some "J1") (some "tok") (fun _ _ => wireNotFound) 0 initialAppState 100).length = 1 ∧
    totalQueries
      (runPoll (some "J1") (some "tok") (fun _ _ => wireNotFound) 0 initialAppState 100) = 1 := by
  refine ⟨?_, by decide, by decide⟩
  simp [pollStep, h]

/-- Closed instance of C7 at the server's actual 404 detail message. -/
theorem not_found_abandons_immediately_witness :
    pollStep ⟨2, 1⟩ (.error "Prediction not found") =
      { state := ⟨2, 1⟩
        refreshNow := 0
        delayedRefreshes := []
        nextCheckDelay := none
        report := .notFound } :=
  (not_found_abandons_immediately ⟨2, 1⟩ "Prediction not found" (by decide)).1

/-- C8: an authenticated `fetchAPI` call with no stored credential fails at
once with the auth-required message and issues zero network requests,
whatever the wire would have answered. -/
theorem auth_required_blocks_network (wire : WireResult) :
    fetchAPI true none wire = (.error "Требуется авторизация", 0) := rfl

/-- C9 as written is false of the code: the retry counters live on the one
`App` controller and are shared between jobs. After job "A" polls once
(pending), job "B"'s first poll is scheduled after 3000 ms instead of the
2000 ms a fresh job gets — job A's polling mutated state that job B reads. -/
theorem jobs_share_retry_counters_cex :
    (checkPredictionStatus (some "B")
        (checkPredictionStatus (some "A") initialAppState (some "tok")
          (fun _ => wirePending)).1.state
        (some "tok") (fun _ => wirePending)).1.nextCheckDelay = some 3000 ∧
    (checkPredictionStatus (some "B") initialAppState (some "tok")
        (fun _ => wirePending)).1.nextCheckDelay = some 2000 := by
  decide

/-- C9 amended: the poller keeps no per-job state — its transition depends
only on the shared `App` counters and the query outcome, never on the job
identifier, so two jobs polled through the same controller read and mutate
the same counters. -/
theorem poll_transition_ignores_job_identity (id1 id2 : Option String)
    (st : AppState) (token : Option String) (wires : Nat → WireResult)
    (h1 : jsFalsyId id1 = false) (h2 : jsFalsyId id2 = false) :
    checkPredictionStatus id1 st token wires =
      checkPredictionStatus id2 st token wires := by
  simp [checkPredictionStatus, getPrediction, h1, h2]

/-- Closed instance of the amended C9: two distinct job identifiers step
identically from the same shared state. -/
theorem poll_transition_ignores_job_identity_witness :
    checkPredictionStatus (some "A") initialAppState (some "tok")
        (fun _ => wirePending) =
      checkPredictionStatus (some "B") initialAppState (some "tok")
        (fun _ => wirePending) :=
  poll_transition_ignores_job_identity (some "A") (some "B") initialAppState
    (some "tok") (fun _ => wirePending) (by decide) (by decide)

/-- C10: a status query with a missing or empty job identifier fails
immediately — `checkPredictionStatus` renders its invalid-identifier error
and schedules nothing, `getPrediction` fails with the no-identifier message —
and zero network requests are issued in every case. -/
theorem missing_id_fails_without_network (st : AppState) (token : Option String)
    (wires : Nat → WireResult) :
    checkPredictionStatus none st token wires =
      ({ state := st
         refreshNow := 0
         delayedRefreshes := []
         nextCheckDelay := none
         report := .invalidId }, 0) ∧
    checkPredictionStatus (some "") st token wires =
      ({ state := st
         refreshNow := 0
         delayedRefreshes := []
         nextCheckDelay := none
         report := .invalidId }, 0) ∧
    getPrediction none token wires =
      (.error "Не указан идентификатор предсказания", 0) ∧
    getPrediction (some "") token wires =
      (.error "Не указан идентификатор предсказания", 0) :=
  ⟨rfl, rfl, rfl, rfl⟩

end FraudDetection
